import Mathlib

/-!
Shallow embedding of the WalletConnect session client of the ledger-lock
repository (class `StacksWalletConnect` in `src/walletconnect/client.ts`,
types from `src/walletconnect/config.ts`).

Modelling choices:
* the external transport handle `walletKit` is an abstract value; the client
  only ever tests it for presence (`null` check) and calls through it, so the
  state keeps an `Option WalletKit`;
* the `Map<string, WalletConnectSession>` field `activeSessions` is an
  association list in insertion order with the `Map` access semantics
  (`get`, `set` replacing in place, `delete` leaving the key absent);
* a call to `walletKit.respondSessionRequest` is an emitted `Response`;
  `handleSessionRequest` returns the list of responses it emits, so "no
  response" is `[]` and "exactly one" is a singleton;
* thrown `Error` values travel as `Except String`, carrying `error.message`
  exactly as the `catch` block reads it;
* the transport-assigned topic of a successful `walletKit.approveSession`
  call is a parameter of `approveSession`, standing for the success case of
  that external call.
-/

namespace LedgerLock

/-- Stacks network identifiers, from `StacksNetwork` in `config.ts`. -/
inductive StacksNetwork where
  | mainnet
  | testnet
  | devnet
deriving DecidableEq

/-- One exposed account entry, from `StacksAddress` in `config.ts`. -/
structure StacksAddress where
  symbol : String
  address : String
deriving DecidableEq

/-- Session record, from `WalletConnectSession` in `config.ts`. -/
structure WalletConnectSession where
  topic : String
  addresses : List StacksAddress
  network : StacksNetwork
deriving DecidableEq

/-- The session store: `activeSessions : Map<string, WalletConnectSession>`,
modelled as an association list in insertion order. Keys stay unique because
every insertion goes through `storeSet`. -/
abbrev SessionStore := List (String × WalletConnectSession)

/-- Semantics of `Map.get`: the value at the key, or absent. -/
def storeGet : SessionStore → String → Option WalletConnectSession
  | [], _ => none
  | (k, v) :: rest, t => if k = t then some v else storeGet rest t

/-- Semantics of `Map.set`: replace in place when the key is present, append
otherwise. -/
def storeSet : SessionStore → String → WalletConnectSession → SessionStore
  | [], t, v => [(t, v)]
  | (k, w) :: rest, t, v =>
      if k = t then (t, v) :: rest else (k, w) :: storeSet rest t v

/-- Semantics of `Map.delete`: drop the entry carrying the key; a no-op when
the key is absent. -/
def storeDelete : SessionStore → String → SessionStore
  | [], _ => []
  | (k, v) :: rest, t =>
      if k = t then storeDelete rest t else (k, v) :: storeDelete rest t

/-- Abstract handle for an initialized transport (`IWalletKit`); the client
only observes its presence. -/
inductive WalletKit where
  | mk

/-- SDK error record produced by `getSdkError` from `@walletconnect/utils`;
only the reason key is observed by this client. -/
structure SdkReason where
  key : String
deriving DecidableEq

/-- Models `getSdkError`: tags the reason with its key. -/
def getSdkError (k : String) : SdkReason := ⟨k⟩

/-- Client state: the `walletKit` field (`null` until `initialize` succeeds)
and the `activeSessions` map of `StacksWalletConnect`. -/
structure WCState where
  walletKit : Option WalletKit
  activeSessions : SessionStore

/-- Payload of a successful handler. The only handler that can return is
`handleGetAddresses`, whose value is an object with an `addresses` field. -/
inductive RpcResult where
  | addresses (xs : List StacksAddress)
deriving DecidableEq

/-- JSON-RPC error object with `code` and `message` fields. -/
structure RpcError where
  code : Int
  message : String
deriving DecidableEq

/-- Body of a JSON-RPC response: exactly one of `result` or `error`, as built
in the `try` and `catch` branches of `handleSessionRequest`. -/
inductive RpcPayload where
  | result (r : RpcResult)
  | error (e : RpcError)
deriving DecidableEq

/-- Response sent through `walletKit.respondSessionRequest`. -/
structure Response where
  id : Nat
  jsonrpc : String
  payload : RpcPayload
deriving DecidableEq

/-- Inner request of a `session_request` event: `event.params.request`. The
`params` payload is opaque here because no placeholder handler inspects it. -/
structure RpcRequest where
  method : String
  params : String
deriving DecidableEq

/-- A `session_request` event: `topic`, correlation `id`, and the request. -/
structure SessionRequestEvent where
  topic : String
  id : Nat
  request : RpcRequest
deriving DecidableEq

/-- Embeds `handleGetAddresses`: resolves the topic in the store, throws
`Session not found` when absent, else returns the stored addresses. -/
def handleGetAddresses (sessions : SessionStore) (topic : String) :
    Except String RpcResult :=
  match storeGet sessions topic with
  | none => .error "Session not found"
  | some s => .ok (.addresses s.addresses)

/-- Embeds `handleTransferStx`: placeholder, always throws. -/
def handleTransferStx (_params : String) : Except String RpcResult :=
  .error "Transfer STX not implemented - connect to your wallet implementation"

/-- Embeds `handleSignTransaction`: placeholder, always throws. -/
def handleSignTransaction (_params : String) : Except String RpcResult :=
  .error "Sign transaction not implemented - connect to your wallet implementation"

/-- Embeds `handleSignMessage`: placeholder, always throws. -/
def handleSignMessage (_params : String) : Except String RpcResult :=
  .error "Sign message not implemented - connect to your wallet implementation"

/-- Embeds `handleSignStructuredMessage`: placeholder, always throws. -/
def handleSignStructuredMessage (_params : String) : Except String RpcResult :=
  .error "Sign structured message not implemented - connect to your wallet implementation"

/-- Embeds `handleCallContract`: placeholder, always throws. -/
def handleCallContract (_params : String) : Except String RpcResult :=
  .error "Call contract not implemented - connect to your wallet implementation"

/-- Embeds the `switch (request.method)` of `handleSessionRequest`: route the
method to its handler; the `default` branch throws `Unsupported method`. -/
def dispatch (sessions : SessionStore) (e : SessionRequestEvent) :
    Except String RpcResult :=
  if e.request.method = "stx_getAddresses" then
    handleGetAddresses sessions e.topic
  else if e.request.method = "stx_transferStx" then
    handleTransferStx e.request.params
  else if e.request.method = "stx_signTransaction" then
    handleSignTransaction e.request.params
  else if e.request.method = "stx_signMessage" then
    handleSignMessage e.request.params
  else if e.request.method = "stx_signStructuredMessage" then
    handleSignStructuredMessage e.request.params
  else if e.request.method = "stx_callContract" then
    handleCallContract e.request.params
  else
    .error ("Unsupported method: " ++ e.request.method)

/-- Embeds `handleSessionRequest`: returns silently when `walletKit` is null;
otherwise emits the single success response of the `try` branch, or the single
`code 5000` error response of the `catch` branch. -/
def handleSessionRequest (st : WCState) (e : SessionRequestEvent) :
    List Response :=
  match st.walletKit with
  | none => []
  | some _ =>
      match dispatch st.activeSessions e with
      | .ok r => [{ id := e.id, jsonrpc := "2.0", payload := .result r }]
      | .error msg =>
          [{ id := e.id, jsonrpc := "2.0", payload := .error ⟨5000, msg⟩ }]

/-- Embeds `approveSession`: throws when not initialized; on transport success
(the transport returning a session with the given `topic`) inserts the session
record binding `[⟨STX, address⟩]` under `network` into `activeSessions`. -/
def approveSession (st : WCState) (address : String) (network : StacksNetwork)
    (topic : String) : Except String WCState :=
  match st.walletKit with
  | none => .error "WalletConnect not initialized"
  | some _ =>
      .ok { st with
              activeSessions :=
                storeSet st.activeSessions topic
                  ⟨topic, [⟨"STX", address⟩], network⟩ }

/-- Embeds `rejectSession`: throws when not initialized; otherwise reports the
`USER_REJECTED` reason to the transport and leaves the state as it is. -/
def rejectSession (st : WCState) (_proposalId : Nat) :
    Except String (SdkReason × WCState) :=
  match st.walletKit with
  | none => .error "WalletConnect not initialized"
  | some _ => .ok (getSdkError "USER_REJECTED", st)

/-- Embeds `disconnectSession`: throws when not initialized; otherwise reports
`USER_DISCONNECTED` to the transport and removes the topic from the store. -/
def disconnectSession (st : WCState) (topic : String) :
    Except String (SdkReason × WCState) :=
  match st.walletKit with
  | none => .error "WalletConnect not initialized"
  | some _ =>
      .ok (getSdkError "USER_DISCONNECTED",
           { st with activeSessions := storeDelete st.activeSessions topic })

/-- Embeds the `session_delete` listener of `setupEventListeners`:
`this.activeSessions.delete(event.topic)`. -/
def handleSessionDelete (st : WCState) (topic : String) : WCState :=
  { st with activeSessions := storeDelete st.activeSessions topic }

/-- The six methods of the dispatcher's routing table. -/
def supportedMethods : List String :=
  ["stx_getAddresses", "stx_transferStx", "stx_signTransaction",
   "stx_signMessage", "stx_signStructuredMessage", "stx_callContract"]

/-- The five signing-side methods whose handlers are unwired placeholders. -/
def signingMethods : List String :=
  ["stx_transferStx", "stx_signTransaction", "stx_signMessage",
   "stx_signStructuredMessage", "stx_callContract"]

/-- Reading a key straight after `storeSet` on that key yields the new value. -/
theorem storeGet_storeSet_self (s : SessionStore) (t : String)
    (v : WalletConnectSession) : storeGet (storeSet s t v) t = some v := by
  induction s with
  | nil => simp [storeSet, storeGet]
  | cons hd tl ih =>
      obtain ⟨k, w⟩ := hd
      by_cases h : k = t
      · simp [storeSet, h, storeGet]
      · simp [storeSet, h, storeGet, ih]

/-- `storeSet` leaves every other key unchanged. -/
theorem storeGet_storeSet_other (s : SessionStore) (t : String)
    (v : WalletConnectSession) (t' : String) (h : t' ≠ t) :
    storeGet (storeSet s t v) t' = storeGet s t' := by
  induction s with
  | nil => simp [storeSet, storeGet, Ne.symm h]
  | cons hd tl ih =>
      obtain ⟨k, w⟩ := hd
      by_cases hk : k = t
      · subst hk
        simp [storeSet, storeGet, Ne.symm h]
      · simp [storeSet, hk, storeGet, ih]

/-- Inserting a fresh key grows the store by exactly one entry. -/
theorem length_storeSet_fresh (s : SessionStore) (t : String)
    (v : WalletConnectSession) (h : storeGet s t = none) :
    (storeSet s t v).length = s.length + 1 := by
  induction s with
  | nil => simp [storeSet]
  | cons hd tl ih =>
      obtain ⟨k, w⟩ := hd
      by_cases hk : k = t
      · simp [storeGet, hk] at h
      · simp only [storeGet, if_neg hk] at h
        simp [storeSet, hk, ih h]

/-- After `storeDelete` the key is absent. -/
theorem storeGet_storeDelete_self (s : SessionStore) (t : String) :
    storeGet (storeDelete s t) t = none := by
  induction s with
  | nil => rfl
  | cons hd tl ih =>
      obtain ⟨k, w⟩ := hd
      by_cases hk : k = t
      · simpa [storeDelete, hk] using ih
      · simp [storeDelete, hk, storeGet, ih]

/-- Deleting a key twice is the same as deleting it once. -/
theorem storeDelete_idem (s : SessionStore) (t : String) :
    storeDelete (storeDelete s t) t = storeDelete s t := by
  induction s with
  | nil => rfl
  | cons hd tl ih =>
      obtain ⟨k, w⟩ := hd
      by_cases hk : k = t
      · simp [storeDelete, hk, ih]
      · simp [storeDelete, hk, ih]

/-- Claim C1: for every request event accepted by the dispatcher (the client
is initialized, so `handleSessionRequest` does not return early), exactly one
response is emitted and it carries the event's `id`, whether the routed
handler succeeds, fails, or the method is unknown. -/
theorem c1_exactly_one_response (st : WCState) (u : WalletKit)
    (hk : st.walletKit = some u) (e : SessionRequestEvent) :
    ∃ r : Response, handleSessionRequest st e = [r] ∧ r.id = e.id := by
  cases h : dispatch st.activeSessions e with
  | ok r =>
      refine ⟨{ id := e.id, jsonrpc := "2.0", payload := .result r }, ?_, rfl⟩
      simp [handleSessionRequest, hk, h]
  | error msg =>
      refine ⟨{ id := e.id, jsonrpc := "2.0",
                payload := .error ⟨5000, msg⟩ }, ?_, rfl⟩
      simp [handleSessionRequest, hk, h]

/-- Witness for C1: an initialized client, an unknown method. -/
theorem c1_exactly_one_response_witness :
    ∃ r : Response,
      handleSessionRequest ⟨some WalletKit.mk, []⟩
          ⟨"abc123", 7, ⟨"stx_bogus", ""⟩⟩ = [r] ∧ r.id = 7 :=
  c1_exactly_one_response ⟨some WalletKit.mk, []⟩ WalletKit.mk rfl
    ⟨"abc123", 7, ⟨"stx_bogus", ""⟩⟩

/-- Claim C2: approving a proposal on an initialized client, with the
transport succeeding and returning a topic not yet in the store, adds exactly
one entry, keyed by that topic, holding `[⟨STX, address⟩]` and the supplied
network; every other key is untouched. -/
theorem c2_approve_inserts_session (st : WCState) (u : WalletKit)
    (hk : st.walletKit = some u) (address topic : String)
    (network : StacksNetwork)
    (hfresh : storeGet st.activeSessions topic = none) :
    ∃ st', approveSession st address network topic = .ok st' ∧
      storeGet st'.activeSessions topic =
        some ⟨topic, [⟨"STX", address⟩], network⟩ ∧
      st'.activeSessions.length = st.activeSessions.length + 1 ∧
      ∀ t', t' ≠ topic →
        storeGet st'.activeSessions t' = storeGet st.activeSessions t' := by
  refine ⟨{ st with
              activeSessions :=
                storeSet st.activeSessions topic
                  ⟨topic, [⟨"STX", address⟩], network⟩ }, ?_, ?_, ?_, ?_⟩
  · simp [approveSession, hk]
  · exact storeGet_storeSet_self ..
  · exact length_storeSet_fresh _ _ _ hfresh
  · intro t' h
    exact storeGet_storeSet_other _ _ _ _ h

/-- Witness for C2: empty store, fresh topic `abc123`. -/
theorem c2_approve_inserts_session_witness :
    ∃ st', approveSession ⟨some WalletKit.mk, []⟩
        "SP3F7GQ48JY59521DZEE6KABHBF4Q33PEYJ823ZXQ" .mainnet "abc123" =
        .ok st' ∧
      storeGet st'.activeSessions "abc123" =
        some ⟨"abc123",
              [⟨"STX", "SP3F7GQ48JY59521DZEE6KABHBF4Q33PEYJ823ZXQ"⟩],
              .mainnet⟩ ∧
      st'.activeSessions.length = ([] : SessionStore).length + 1 ∧
      ∀ t', t' ≠ "abc123" →
        storeGet st'.activeSessions t' = storeGet ([] : SessionStore) t' :=
  c2_approve_inserts_session ⟨some WalletKit.mk, []⟩ WalletKit.mk rfl
    "SP3F7GQ48JY59521DZEE6KABHBF4Q33PEYJ823ZXQ" "abc123" .mainnet rfl

/-- Claim C3: for a topic present in the store, a `stx_getAddresses` request
yields exactly the success response whose `result.addresses` is the stored
account list. -/
theorem c3_getAddresses_returns_stored (st : WCState) (u : WalletKit)
    (hk : st.walletKit = some u) (t : String) (sess : WalletConnectSession)
    (hs : storeGet st.activeSessions t = some sess) (i : Nat) (p : String) :
    handleSessionRequest st ⟨t, i, ⟨"stx_getAddresses", p⟩⟩ =
      [{ id := i, jsonrpc := "2.0",
         payload := .result (.addresses sess.addresses) }] := by
  simp [handleSessionRequest, hk, dispatch, handleGetAddresses, hs]

/-- Witness for C3: one stored session under topic `abc123`. -/
theorem c3_getAddresses_returns_stored_witness :
    handleSessionRequest
        ⟨some WalletKit.mk,
         [("abc123", ⟨"abc123", [⟨"STX", "SP3F7"⟩], .mainnet⟩)]⟩
        ⟨"abc123", 3, ⟨"stx_getAddresses", ""⟩⟩ =
      [{ id := 3, jsonrpc := "2.0",
         payload := .result (.addresses [⟨"STX", "SP3F7"⟩]) }] :=
  c3_getAddresses_returns_stored
    ⟨some WalletKit.mk,
     [("abc123", ⟨"abc123", [⟨"STX", "SP3F7"⟩], .mainnet⟩)]⟩
    WalletKit.mk rfl "abc123" ⟨"abc123", [⟨"STX", "SP3F7"⟩], .mainnet⟩
    rfl 3 ""

/-- Claim C4: for a topic absent from the store, a `stx_getAddresses` request
yields exactly one response, and it carries the `Session not found` error
(code 5000), never a result. -/
theorem c4_getAddresses_absent_errors (st : WCState) (u : WalletKit)
    (hk : st.walletKit = some u) (t : String)
    (hs : storeGet st.activeSessions t = none) (i : Nat) (p : String) :
    handleSessionRequest st ⟨t, i, ⟨"stx_getAddresses", p⟩⟩ =
      [{ id := i, jsonrpc := "2.0",
         payload := .error ⟨5000, "Session not found"⟩ }] := by
  simp [handleSessionRequest, hk, dispatch, handleGetAddresses, hs]

/-- Witness for C4: empty store, topic `abc123` absent. -/
theorem c4_getAddresses_absent_errors_witness :
    handleSessionRequest ⟨some WalletKit.mk, []⟩
        ⟨"abc123", 9, ⟨"stx_getAddresses", ""⟩⟩ =
      [{ id := 9, jsonrpc := "2.0",
         payload := .error ⟨5000, "Session not found"⟩ }] :=
  c4_getAddresses_absent_errors ⟨some WalletKit.mk, []⟩ WalletKit.mk rfl
    "abc123" rfl 9 ""

/-- Claim C5: with no signing backend wired, each of the five signing-side
methods yields exactly one response `{id, error: {code 5000, message}}`, the
message contains `not implemented`, and the message is specific to the
method: no other signing method produces the same message. -/
theorem c5_signing_not_implemented (st : WCState) (u : WalletKit)
    (hk : st.walletKit = some u) (e : SessionRequestEvent)
    (hm : e.request.method ∈ signingMethods) :
    ∃ msg : String,
      handleSessionRequest st e =
        [{ id := e.id, jsonrpc := "2.0", payload := .error ⟨5000, msg⟩ }] ∧
      (∃ a b : String, msg = a ++ "not implemented" ++ b) ∧
      ∀ e' : SessionRequestEvent, e'.request.method ∈ signingMethods →
        e'.request.method ≠ e.request.method →
        handleSessionRequest st e' ≠
          [{ id := e'.id, jsonrpc := "2.0", payload := .error ⟨5000, msg⟩ }] := by
  obtain ⟨t, i, m, p⟩ := e
  simp only [signingMethods, List.mem_cons, List.not_mem_nil, or_false] at hm
  rcases hm with rfl | rfl | rfl | rfl | rfl
  · refine ⟨"Transfer STX not implemented - connect to your wallet implementation",
      ?_, ⟨"Transfer STX ", " - connect to your wallet implementation", by decide⟩, ?_⟩
    · simp [handleSessionRequest, hk, dispatch, handleTransferStx]
    · intro e' hm' hne
      obtain ⟨t', i', m', p'⟩ := e'
      simp only [signingMethods, List.mem_cons, List.not_mem_nil, or_false] at hm'
      rcases hm' with rfl | rfl | rfl | rfl | rfl <;>
        simp_all [handleSessionRequest, dispatch, handleTransferStx,
          handleSignTransaction, handleSignMessage,
          handleSignStructuredMessage, handleCallContract]
  · refine ⟨"Sign transaction not implemented - connect to your wallet implementation",
      ?_, ⟨"Sign transaction ", " - connect to your wallet implementation", by decide⟩, ?_⟩
    · simp [handleSessionRequest, hk, dispatch, handleSignTransaction]
    · intro e' hm' hne
      obtain ⟨t', i', m', p'⟩ := e'
      simp only [signingMethods, List.mem_cons, List.not_mem_nil, or_false] at hm'
      rcases hm' with rfl | rfl | rfl | rfl | rfl <;>
        simp_all [handleSessionRequest, dispatch, handleTransferStx,
          handleSignTransaction, handleSignMessage,
          handleSignStructuredMessage, handleCallContract]
  · refine ⟨"Sign message not implemented - connect to your wallet implementation",
      ?_, ⟨"Sign message ", " - connect to your wallet implementation", by decide⟩, ?_⟩
    · simp [handleSessionRequest, hk, dispatch, handleSignMessage]
    · intro e' hm' hne
      obtain ⟨t', i', m', p'⟩ := e'
      simp only [signingMethods, List.mem_cons, List.not_mem_nil, or_false] at hm'
      rcases hm' with rfl | rfl | rfl | rfl | rfl <;>
        simp_all [handleSessionRequest, dispatch, handleTransferStx,
          handleSignTransaction, handleSignMessage,
          handleSignStructuredMessage, handleCallContract]
  · refine ⟨"Sign structured message not implemented - connect to your wallet implementation",
      ?_, ⟨"Sign structured message ", " - connect to your wallet implementation", by decide⟩, ?_⟩
    · simp [handleSessionRequest, hk, dispatch, handleSignStructuredMessage]
    · intro e' hm' hne
      obtain ⟨t', i', m', p'⟩ := e'
      simp only [signingMethods, List.mem_cons, List.not_mem_nil, or_false] at hm'
      rcases hm' with rfl | rfl | rfl | rfl | rfl <;>
        simp_all [handleSessionRequest, dispatch, handleTransferStx,
          handleSignTransaction, handleSignMessage,
          handleSignStructuredMessage, handleCallContract]
  · refine ⟨"Call contract not implemented - connect to your wallet implementation",
      ?_, ⟨"Call contract ", " - connect to your wallet implementation", by decide⟩, ?_⟩
    · simp [handleSessionRequest, hk, dispatch, handleCallContract]
    · intro e' hm' hne
      obtain ⟨t', i', m', p'⟩ := e'
      simp only [signingMethods, List.mem_cons, List.not_mem_nil, or_false] at hm'
      rcases hm' with rfl | rfl | rfl | rfl | rfl <;>
        simp_all [handleSessionRequest, dispatch, handleTransferStx,
          handleSignTransaction, handleSignMessage,
          handleSignStructuredMessage, handleCallContract]

/-- Witness for C5: `stx_transferStx` with no backend wired, id 7. -/
theorem c5_signing_not_implemented_witness :
    ∃ msg : String,
      handleSessionRequest ⟨some WalletKit.mk, []⟩
          ⟨"abc123", 7, ⟨"stx_transferStx", ""⟩⟩ =
        [{ id := 7, jsonrpc := "2.0", payload := .error ⟨5000, msg⟩ }] ∧
      (∃ a b : String, msg = a ++ "not implemented" ++ b) ∧
      ∀ e' : SessionRequestEvent, e'.request.method ∈ signingMethods →
        e'.request.method ≠ "stx_transferStx" →
        handleSessionRequest ⟨some WalletKit.mk, []⟩ e' ≠
          [{ id := e'.id, jsonrpc := "2.0", payload := .error ⟨5000, msg⟩ }] :=
  c5_signing_not_implemented ⟨some WalletKit.mk, []⟩ WalletKit.mk rfl
    ⟨"abc123", 7, ⟨"stx_transferStx", ""⟩⟩ (by decide)

/-- Claim C6: a method outside the routing table yields exactly one error
response, built by the catch of the thrown `Unsupported method` failure with
the generic application code 5000; nothing escapes the dispatcher. -/
theorem c6_unknown_method_error (st : WCState) (u : WalletKit)
    (hk : st.walletKit = some u) (e : SessionRequestEvent)
    (hm : e.request.method ∉ supportedMethods) :
    handleSessionRequest st e =
      [{ id := e.id, jsonrpc := "2.0",
         payload :=
           .error ⟨5000, "Unsupported method: " ++ e.request.method⟩ }] := by
  obtain ⟨t, i, m, p⟩ := e
  simp only [supportedMethods, List.mem_cons, List.not_mem_nil, or_false,
    not_or] at hm
  obtain ⟨h1, h2, h3, h4, h5, h6⟩ := hm
  simp [handleSessionRequest, hk, dispatch, h1, h2, h3, h4, h5, h6]

/-- Witness for C6: the unknown method `stx_bogus`. -/
theorem c6_unknown_method_error_witness :
    handleSessionRequest ⟨some WalletKit.mk, []⟩
        ⟨"abc123", 4, ⟨"stx_bogus", ""⟩⟩ =
      [{ id := 4, jsonrpc := "2.0",
         payload := .error ⟨5000, "Unsupported method: " ++ "stx_bogus"⟩ }] :=
  c6_unknown_method_error ⟨some WalletKit.mk, []⟩ WalletKit.mk rfl
    ⟨"abc123", 4, ⟨"stx_bogus", ""⟩⟩ (by decide)

/-- Claim C7: both disconnection paths remove the topic from the store: a
local `disconnectSession` (on an initialized client) succeeds and leaves the
topic absent, and a remote `session_delete` event leaves the topic absent. -/
theorem c7_disconnect_removes_entry (st : WCState) (u : WalletKit)
    (hk : st.walletKit = some u) (t : String) :
    (∃ st', disconnectSession st t =
        .ok (getSdkError "USER_DISCONNECTED", st') ∧
      storeGet st'.activeSessions t = none) ∧
    storeGet (handleSessionDelete st t).activeSessions t = none := by
  constructor
  · refine ⟨{ st with activeSessions := storeDelete st.activeSessions t },
      ?_, ?_⟩
    · simp [disconnectSession, hk]
    · exact storeGet_storeDelete_self ..
  · exact storeGet_storeDelete_self ..

/-- Witness for C7: one stored session under topic `abc123`. -/
theorem c7_disconnect_removes_entry_witness :
    (∃ st', disconnectSession
        ⟨some WalletKit.mk,
         [("abc123", ⟨"abc123", [⟨"STX", "SP3F7"⟩], .mainnet⟩)]⟩ "abc123" =
        .ok (getSdkError "USER_DISCONNECTED", st') ∧
      storeGet st'.activeSessions "abc123" = none) ∧
    storeGet (handleSessionDelete
        ⟨some WalletKit.mk,
         [("abc123", ⟨"abc123", [⟨"STX", "SP3F7"⟩], .mainnet⟩)]⟩
        "abc123").activeSessions "abc123" = none :=
  c7_disconnect_removes_entry
    ⟨some WalletKit.mk,
     [("abc123", ⟨"abc123", [⟨"STX", "SP3F7"⟩], .mainnet⟩)]⟩
    WalletKit.mk rfl "abc123"

/-- Claim C8: rejecting a proposal on an initialized client reports exactly
the `USER_REJECTED` reason to the transport and returns the state unchanged,
so the session store keeps its size and contents. -/
theorem c8_reject_preserves_store (st : WCState) (u : WalletKit)
    (hk : st.walletKit = some u) (pid : Nat) :
    rejectSession st pid = .ok (getSdkError "USER_REJECTED", st) := by
  simp [rejectSession, hk]

/-- Witness for C8: a one-session store survives a rejection untouched. -/
theorem c8_reject_preserves_store_witness :
    rejectSession
        ⟨some WalletKit.mk,
         [("abc123", ⟨"abc123", [⟨"STX", "SP3F7"⟩], .mainnet⟩)]⟩ 1 =
      .ok (getSdkError "USER_REJECTED",
           ⟨some WalletKit.mk,
            [("abc123", ⟨"abc123", [⟨"STX", "SP3F7"⟩], .mainnet⟩)]⟩) :=
  c8_reject_preserves_store
    ⟨some WalletKit.mk,
     [("abc123", ⟨"abc123", [⟨"STX", "SP3F7"⟩], .mainnet⟩)]⟩
    WalletKit.mk rfl 1

/-- Claim C9: removal is idempotent: after one `session_delete` the topic is
absent, the second delete is a no-op returning the same state (not an error),
and the topic is still absent after it. -/
theorem c9_remove_idempotent (st : WCState) (t : String) :
    storeGet (handleSessionDelete st t).activeSessions t = none ∧
    handleSessionDelete (handleSessionDelete st t) t =
      handleSessionDelete st t ∧
    storeGet (handleSessionDelete (handleSessionDelete st t)
        t).activeSessions t = none := by
  refine ⟨storeGet_storeDelete_self .., ?_, storeGet_storeDelete_self ..⟩
  simp [handleSessionDelete, storeDelete_idem]

/-- Claim C10: with `walletKit` still null, `handleSessionRequest` returns
early: no response at all is emitted for the request and nothing is thrown. -/
theorem c10_uninitialized_silent (st : WCState) (e : SessionRequestEvent)
    (hk : st.walletKit = none) : handleSessionRequest st e = [] := by
  simp [handleSessionRequest, hk]

/-- Witness for C10: a never-initialized client stays silent. -/
theorem c10_uninitialized_silent_witness :
    handleSessionRequest ⟨none, []⟩
      ⟨"abc123", 1, ⟨"stx_getAddresses", ""⟩⟩ = [] :=
  c10_uninitialized_silent ⟨none, []⟩
    ⟨"abc123", 1, ⟨"stx_getAddresses", ""⟩⟩ rfl

end LedgerLock
